import Mathlib

/-!
Shallow embedding of the URL-shortener core (Go, `aws-url-shortener-api`):
the short-code generator and expiry calculator (`pkg/utils/utils.go`), the
in-memory key-value store (`pkg/database/mock_dynamodb.go`), and the request
handlers (`pkg/handler/handler.go`).  Go maps become total functions
`String → Option URLItem`; each fallible operation returns its Go
`(result, error)` pair as an `Except` together with the post-state; Go `error`
values are the literal message strings the source builds.
-/

namespace UrlShortener

/-- `model.URLItem` — the sole persisted entity.  `Expiration` and
`ClickCount` are Go `int64`; the counter values reachable here stay far below
`2^63`, so they are embedded as unbounded `Int`. -/
structure URLItem where
  shortCode : String
  originalURL : String
  createdAt : String
  expiration : Int
  clickCount : Int
deriving DecidableEq, Repr

/-- `model.ShortenRequest`, the parsed body of `POST /shorten`. -/
structure ShortenRequest where
  url : String
  expireInDays : Int
deriving DecidableEq, Repr

/-! ## Code generator and expiry calculator (`pkg/utils/utils.go`) -/

/-- The constant `charset` of `pkg/utils/utils.go`. -/
def charset : String :=
  "abcdefghijklmnopqrstuvwxyzABCDEFGHIJKLMNOPQRSTUVWXYZ0123456789"

/-- `charsLength := len(charset)` (all characters are ASCII, so the Go byte
length equals the character count). -/
def charsLength : Nat := charset.data.length

/-- `charset[i]` — Go byte indexing into the ASCII constant; the default is
irrelevant because every index used is `_ % charsLength < charsLength`. -/
def charsetChar (i : Nat) : Char := charset.data.getD i ' '

/-- The per-byte mapping of `GenerateShortCode`:
`buffer[i] = charset[int(buffer[i]) % charsLength]`. -/
def byteToChar (b : Nat) : Char := charsetChar (b % charsLength)

/-- Result of `GenerateShortCode`.  `panik` records that Go
`make([]byte, length)` panics when `length < 0`; `randErr` is the error path
of `rand.Read`. -/
inductive GenResult where
  | panik
  | randErr (msg : String)
  | ok (code : String)
deriving DecidableEq, Repr

/-- `GenerateShortCode(length)` of `pkg/utils/utils.go`.  The random source is
embedded as a flag `randOk` (whether `rand.Read` succeeds) and a byte stream
`rand` (`rand i % 256` is the byte placed at position `i`). -/
def GenerateShortCode (length : Int) (randOk : Bool) (rand : Nat → Nat) : GenResult :=
  if length < 0 then .panik
  else if randOk = false then .randErr "rand read failed"
  else .ok (String.mk ((List.range length.toNat).map fun i => byteToChar (rand i % 256)))

/-- The smallest Go `int64` value. -/
def int64Min : Int := -9223372036854775808

/-- The largest Go `int64` value. -/
def int64Max : Int := 9223372036854775807

/-- Reinterpretation of an unbounded integer as a Go `int64`: reduce modulo
`2^64` into `[int64Min, int64Max]`.  Every Go `int64`/`uint64` operation is
congruent modulo `2^64` to the exact integer operation, so a whole
computation wraps to `wrap64` of its exact value. -/
def wrap64 (x : Int) : Int := (x - int64Min) % 18446744073709551616 + int64Min

/-- `CalculateExpirationTime(days)` of `pkg/utils/utils.go`, as a function of
the current Unix time `now`.  `time.Now().AddDate(0, 0, days).Unix()` advances
Unix time by `days*86400` seconds in a fixed-offset zone such as the UTC of
the Lambda runtime (Unix time has no leap seconds); the `time.Date`
normalization performs that calendar arithmetic in `int64`/`uint64`, each step
congruent modulo `2^64` to the exact computation, so the returned `int64` is
the exact sum wrapped by `wrap64`. -/
def CalculateExpirationTime (days : Int) (now : Int) : Int :=
  if days ≤ 0 then 0 else wrap64 (now + days * 86400)

/-! ## In-memory store (`pkg/database/mock_dynamodb.go`) -/

/-- `MockDynamoDB`: a Go map `urls` plus the `failNext` fault-injection flag.
The `sync.RWMutex` only serializes access; the sequential semantics is the
map itself. -/
structure MockDynamoDB where
  urls : String → Option URLItem
  failNext : Bool

/-- `NewMockDynamoDB()` — empty map, no injected fault. -/
def NewMockDynamoDB : MockDynamoDB := ⟨fun _ => none, false⟩

/-- The field-by-field copy both `CreateURL` and `GetURL` build
("Store a copy of the URL item"). -/
def itemCopy (item : URLItem) : URLItem :=
  { shortCode := item.shortCode
    originalURL := item.originalURL
    createdAt := item.createdAt
    expiration := item.expiration
    clickCount := item.clickCount }

/-- `MockDynamoDB.CreateURL`: on `failNext`, fail and clear the flag;
otherwise store a copy of the item under its short code, unconditionally. -/
def MockDynamoDB.CreateURL (m : MockDynamoDB) (urlItem : URLItem) :
    Except String Unit × MockDynamoDB :=
  if m.failNext then
    (.error "mock error: failed to create URL", { m with failNext := false })
  else
    let urls' := fun c => if c = urlItem.shortCode then some (itemCopy urlItem) else m.urls c
    (.ok (), { m with urls := urls' })

/-- `MockDynamoDB.GetURL`: on `failNext`, fail and clear the flag; otherwise a
point lookup returning a copy, or the "URL not found" error. -/
def MockDynamoDB.GetURL (m : MockDynamoDB) (code : String) :
    Except String URLItem × MockDynamoDB :=
  if m.failNext then
    (.error "mock error: failed to get URL", { m with failNext := false })
  else
    match m.urls code with
    | none => (.error ("URL not found for code: " ++ code), m)
    | some item => (.ok (itemCopy item), m)

/-- `MockDynamoDB.IncrementClickCount`: on `failNext`, fail and clear the
flag; otherwise `urlItem.ClickCount++` in place, or the "URL not found"
error leaving the map untouched. -/
def MockDynamoDB.IncrementClickCount (m : MockDynamoDB) (code : String) :
    Except String Unit × MockDynamoDB :=
  if m.failNext then
    (.error "mock error: failed to increment click count", { m with failNext := false })
  else
    match m.urls code with
    | none => (.error ("URL not found for code: " ++ code), m)
    | some item =>
      let urls' := fun c =>
        if c = code then some { item with clickCount := item.clickCount + 1 } else m.urls c
      (.ok (), { m with urls := urls' })

/-! ## Request handlers (`pkg/handler/handler.go`) -/

/-- `strings.Contains(s, sub)`: some suffix of `s` starts with `sub`. -/
def strContains (s sub : String) : Bool :=
  (List.range (s.data.length + 1)).any fun i => sub.data.isPrefixOf (s.data.drop i)

/-- `strings.TrimPrefix(s, pre)`: drop `pre` when it is a leading segment of
`s`, otherwise return `s` unchanged. -/
def TrimPrefix (s pre : String) : String :=
  if pre.data.isPrefixOf s.data then String.mk (s.data.drop pre.data.length) else s

/-- `events.LambdaFunctionURLResponse`, restricted to the fields the handlers
set: status code, headers, body.  An absent `Headers` map is `[]`. -/
structure LambdaResponse where
  statusCode : Nat
  headers : List (String × String)
  body : String
deriving DecidableEq, Repr

/-- The `{"error": "..."}` JSON bodies the handlers build. -/
def errBody (msg : String) : String := "\x7b\"error\": \"" ++ msg ++ "\"\x7d"

/-- The `codeLength` constant of `pkg/handler/handler.go`. -/
def codeLength : Nat := 5

/-- Placeholder for a Go runtime panic aborting the invocation; in
`ShortenURL` this branch is unreachable because `codeLength = 5 ≥ 0`. -/
def goPanicResponse : LambdaResponse :=
  { statusCode := 0, headers := [], body := "panic: makeslice: len out of range" }

/-- `handler.ShortenURL`.  `clientInit` is the outcome of
`database.GetClient`; `reqBody` is the result of `json.Unmarshal` on the
request body (`none` = parse error; a JSON body without a `url` field parses
to `url = ""`); `randOk`/`rand` feed `utils.GenerateShortCode`; `now` and
`createdAt` are the wall clock readings; `baseURLEnv` is `os.Getenv
"BASE_URL"` and `domainName` the request's domain. -/
def ShortenURL (clientInit : Except String Unit) (m : MockDynamoDB)
    (reqBody : Option ShortenRequest) (randOk : Bool) (rand : Nat → Nat)
    (now : Int) (createdAt : String) (baseURLEnv domainName : String) :
    LambdaResponse × MockDynamoDB :=
  match clientInit with
  | .error e =>
    ({ statusCode := 500, headers := [], body := errBody ("Internal server error: " ++ e) }, m)
  | .ok _ =>
    match reqBody with
    | none =>
      ({ statusCode := 400, headers := [], body := errBody "Invalid request body" }, m)
    | some shortenReq =>
      if shortenReq.url = "" then
        ({ statusCode := 400, headers := [], body := errBody "URL is required" }, m)
      else
        match GenerateShortCode (codeLength : Int) randOk rand with
        | .panik => (goPanicResponse, m)
        | .randErr msg =>
          ({ statusCode := 500, headers := [],
             body := errBody ("Failed to generate short code: " ++ msg) }, m)
        | .ok code =>
          let expiration := CalculateExpirationTime shortenReq.expireInDays now
          let urlItem : URLItem :=
            { shortCode := code, originalURL := shortenReq.url, createdAt := createdAt,
              expiration := expiration, clickCount := 0 }
          match m.CreateURL urlItem with
          | (.error e, m') =>
            ({ statusCode := 500, headers := [],
               body := errBody ("Failed to create short URL: " ++ e) }, m')
          | (.ok _, m') =>
            let baseURL := if baseURLEnv = "" then "https://" ++ domainName else baseURLEnv
            let shortURL := baseURL ++ "/" ++ urlItem.shortCode
            ({ statusCode := 201, headers := [("Content-Type", "application/json")],
               body := "\x7b\"short_url\":\"" ++ shortURL ++ "\"\x7d" }, m')

/-- `handler.RedirectURL`.  After a successful lookup the Go code spawns
`go database.IncrementClickCount(...)` without awaiting it; the response is
built independently of that task, whose effect is the separate
`MockDynamoDB.IncrementClickCount` transition. -/
def RedirectURL (clientInit : Except String Unit) (m : MockDynamoDB)
    (rawPath : String) : LambdaResponse × MockDynamoDB :=
  match clientInit with
  | .error e =>
    ({ statusCode := 500, headers := [], body := errBody ("Internal server error: " ++ e) }, m)
  | .ok _ =>
    if rawPath = "/" then
      ({ statusCode := 400, headers := [], body := errBody "Short code is required" }, m)
    else
      let code := TrimPrefix rawPath "/"
      match m.GetURL code with
      | (.error e, m') =>
        if strContains e "URL not found" then
          ({ statusCode := 404, headers := [], body := errBody "URL not found" }, m')
        else
          ({ statusCode := 500, headers := [],
             body := errBody ("Failed to retrieve URL: " ++ e) }, m')
      | (.ok urlItem, m') =>
        ({ statusCode := 302, headers := [("Location", urlItem.originalURL)], body := "" }, m')

/-! ## Sequences of store operations

For the data-model invariants we run arbitrary sequences of the three store
operations, with `create` building its item exactly as `ShortenURL` does
(`clickCount = 0`). -/

/-- The record `ShortenURL` persists: `clickCount` initialized to `0`. -/
def shortenItem (code origURL createdAt : String) (expiration : Int) : URLItem :=
  { shortCode := code, originalURL := origURL, createdAt := createdAt,
    expiration := expiration, clickCount := 0 }

/-- One store operation, as invoked by the handlers. -/
inductive StoreOp where
  | create (code origURL createdAt : String) (expiration : Int)
  | get (code : String)
  | inc (code : String)
deriving DecidableEq, Repr

/-- The state transition of one store operation. -/
def applyOp (m : MockDynamoDB) : StoreOp → MockDynamoDB
  | .create c o ca e => (m.CreateURL (shortenItem c o ca e)).2
  | .get c => (m.GetURL c).2
  | .inc c => (m.IncrementClickCount c).2

/-- Run a sequence of store operations left to right. -/
def runOps (m : MockDynamoDB) : List StoreOp → MockDynamoDB
  | [] => m
  | op :: rest => runOps (applyOp m op) rest

/-- The stored click count of the record keyed by `code`, if live. -/
def clickCountAt (m : MockDynamoDB) (code : String) : Option Int :=
  (m.urls code).map (·.clickCount)

/-- A run in which every `create` uses a short code with no live record —
the store-level uniqueness invariant of the spec. -/
def FreshCreates : MockDynamoDB → List StoreOp → Prop
  | _, [] => True
  | m, op :: rest =>
    (match op with
     | .create c _ _ _ => m.urls c = none
     | _ => True) ∧ FreshCreates (applyOp m op) rest

/-- How many of the 256 possible byte values `GenerateShortCode` maps to the
output character `c`. -/
def byteCharCount (c : Char) : Nat :=
  ((List.range 256).filter fun b => byteToChar b = c).length

/-- A concrete one-record store used by the witnesses: the result of creating
`"abcde" ↦ https://example.com` in a fresh mock store. -/
def mWit : MockDynamoDB :=
  (NewMockDynamoDB.CreateURL
    (shortenItem "abcde" "https://example.com" "2025-01-01T00:00:00Z" 0)).2

/-! ## Helper lemmas -/

theorem isPrefixOf_append (l r₁ r₂ : List Char) (h : l.isPrefixOf r₁ = true) :
    l.isPrefixOf (r₁ ++ r₂) = true := by
  induction l generalizing r₁ with
  | nil => simp [List.isPrefixOf]
  | cons a t ih =>
    cases r₁ with
    | nil => simp [List.isPrefixOf] at h
    | cons b t₁ =>
      simp only [List.cons_append, List.isPrefixOf, Bool.and_eq_true] at h ⊢
      exact ⟨h.1, ih t₁ h.2⟩

theorem strContains_of_isPrefixOf (s sub : String)
    (h : sub.data.isPrefixOf s.data = true) : strContains s sub = true := by
  unfold strContains
  refine List.any_eq_true.mpr ⟨0, ?_, ?_⟩
  · simp
  · simpa using h

/-- The mock store's not-found message always passes the handlers'
`strings.Contains(err.Error(), "URL not found")` test. -/
theorem notFound_contains (code : String) :
    strContains ("URL not found for code: " ++ code) "URL not found" = true := by
  apply strContains_of_isPrefixOf
  rw [String.data_append]
  exact isPrefixOf_append _ _ _ (by decide)

theorem byteToChar_mem (b : Nat) : byteToChar b ∈ charset.data := by
  unfold byteToChar charsetChar
  have hb : b % charsLength < charset.data.length := Nat.mod_lt _ (by decide)
  rw [List.getD_eq_getElem _ _ hb]
  exact List.getElem_mem hb

theorem CreateURL_eq_ok (m : MockDynamoDB) (it : URLItem) (hf : m.failNext = false) :
    m.CreateURL it =
      (Except.ok (), { m with urls := fun c =>
        if c = it.shortCode then some (itemCopy it) else m.urls c }) := by
  simp [MockDynamoDB.CreateURL, hf]

/-! ## Claim theorems -/

/-- C2: for every nonnegative length, when the random source succeeds,
`GenerateShortCode` returns a string of exactly `length` characters, each an
element of the 62-character alphabet. -/
theorem GenerateShortCode_length_charset (length : Int) (h : 0 ≤ length)
    (rand : Nat → Nat) :
    ∃ s, GenerateShortCode length true rand = GenResult.ok s ∧
      s.length = length.toNat ∧ ∀ c ∈ s.data, c ∈ charset.data := by
  refine ⟨String.mk ((List.range length.toNat).map fun i => byteToChar (rand i % 256)),
    ?_, ?_, ?_⟩
  · have hn : ¬ length < 0 := by omega
    simp [GenerateShortCode, hn]
  · simp [String.length]
  · intro c hc
    simp only [List.mem_map, List.mem_range] at hc
    obtain ⟨i, _, rfl⟩ := hc
    exact byteToChar_mem _

/-- C2 witness: length 3 with the identity byte stream. -/
theorem GenerateShortCode_length_charset_witness :
    ∃ s, GenerateShortCode 3 true (fun i => i) = GenResult.ok s ∧
      s.length = (3 : Int).toNat ∧ ∀ c ∈ s.data, c ∈ charset.data :=
  GenerateShortCode_length_charset 3 (by decide) (fun i => i)

/-- C3 counterexample: the byte-to-character mapping of the generator does
NOT send an equal number of the 256 byte values to every alphabet character
(`256 = 4*62 + 8`, so the first 8 characters are over-represented). -/
theorem byteToChar_not_equidistributed :
    ¬ (∀ c ∈ charset.data, ∀ c' ∈ charset.data,
        byteCharCount c = byteCharCount c') := by
  intro h
  exact absurd (h 'a' (by decide) 'i' (by decide)) (by decide)

/-- C3 amended: the generator's byte-to-character mapping sends 5 of the 256
byte values to each of the first 8 alphabet characters (`a`–`h`) and 4 to
each of the remaining 54 — a modulo-biased, not uniform, distribution. -/
theorem byteToChar_distribution :
    charset.data.map byteCharCount = List.replicate 8 5 ++ List.replicate 54 4 := by
  decide

/-- C4 counterexample: for huge positive `days` — values the handler accepts
from `expire_in_days` — the int64 calendar arithmetic wraps, so the result is
NOT the absolute timestamp `now + days*86400`. -/
theorem CalculateExpirationTime_overflow :
    ¬ (∀ days now : Int, 0 < days →
        CalculateExpirationTime days now = now + days * 86400) := by
  intro h
  exact absurd (h 1000000000000000 1700000000 (by decide)) (by decide)

/-- C4 amended: `CalculateExpirationTime` returns the no-expiration sentinel
`0` for `days ≤ 0`, and for positive `days` returns `now + days*86400`
whenever that sum fits in `int64` (beyond that it wraps modulo `2^64`). -/
theorem CalculateExpirationTime_spec (days now : Int) :
    (0 < days → int64Min ≤ now + days * 86400 → now + days * 86400 ≤ int64Max →
      CalculateExpirationTime days now = now + days * 86400) ∧
    (days ≤ 0 → CalculateExpirationTime days now = 0) := by
  constructor
  · intro h h1 h2
    have hn : ¬ days ≤ 0 := by omega
    simp only [CalculateExpirationTime, hn, if_false, wrap64] at *
    simp only [int64Min, int64Max] at *
    omega
  · intro h
    simp [CalculateExpirationTime, h]

/-- C4 witness: 7 days from Unix time 1000, and -3 days. -/
theorem CalculateExpirationTime_spec_witness :
    CalculateExpirationTime 7 1000 = 1000 + 7 * 86400 ∧
    CalculateExpirationTime (-3) 1000 = 0 :=
  ⟨(CalculateExpirationTime_spec 7 1000).1 (by decide) (by decide) (by decide),
   (CalculateExpirationTime_spec (-3) 1000).2 (by decide)⟩

/-- C10: for every negative length `GenerateShortCode` hits the Go
`make([]byte, length)` panic — it neither returns a `RandomSourceError` nor
any ordinary value, whatever the random source does. -/
theorem GenerateShortCode_negative_panik (length : Int) (h : length < 0)
    (randOk : Bool) (rand : Nat → Nat) :
    GenerateShortCode length randOk rand = GenResult.panik ∧
    (∀ msg, GenerateShortCode length randOk rand ≠ GenResult.randErr msg) ∧
    (∀ s, GenerateShortCode length randOk rand ≠ GenResult.ok s) := by
  refine ⟨by simp [GenerateShortCode, h], ?_, ?_⟩ <;>
    intro x <;> simp [GenerateShortCode, h]

/-- C10 witness: length -1. -/
theorem GenerateShortCode_negative_panik_witness :
    GenerateShortCode (-1) true (fun _ => 0) = GenResult.panik ∧
    (∀ msg, GenerateShortCode (-1) true (fun _ => 0) ≠ GenResult.randErr msg) ∧
    (∀ s, GenerateShortCode (-1) true (fun _ => 0) ≠ GenResult.ok s) :=
  GenerateShortCode_negative_panik (-1) (by decide) true (fun _ => 0)

/-- C5: on a live key, `IncrementClickCount` succeeds and the stored click
count grows by exactly 1; on a missing key it fails with the not-found error
(which the handlers classify as `NotFoundError`) and the store is returned
unchanged. -/
theorem IncrementClickCount_spec (m : MockDynamoDB) (code : String)
    (hf : m.failNext = false) :
    (∀ item, m.urls code = some item →
      ∃ m', m.IncrementClickCount code = (Except.ok (), m') ∧
        clickCountAt m' code = some (item.clickCount + 1)) ∧
    (m.urls code = none →
      m.IncrementClickCount code =
        (Except.error ("URL not found for code: " ++ code), m) ∧
      strContains ("URL not found for code: " ++ code) "URL not found" = true) := by
  constructor
  · intro item hitem
    let u : String → Option URLItem := fun c =>
      if c = code then some { item with clickCount := item.clickCount + 1 } else m.urls c
    refine ⟨{ m with urls := u }, ?_, ?_⟩
    · simp [MockDynamoDB.IncrementClickCount, hf, hitem, u]
    · simp [clickCountAt, u]
  · intro hnone
    exact ⟨by simp [MockDynamoDB.IncrementClickCount, hf, hnone], notFound_contains code⟩

/-- C5 witness: incrementing the one record of `mWit`, and incrementing a
missing key in the empty store. -/
theorem IncrementClickCount_spec_witness :
    (∃ m', mWit.IncrementClickCount "abcde" = (Except.ok (), m') ∧
      clickCountAt m' "abcde" = some (0 + 1)) ∧
    (NewMockDynamoDB.IncrementClickCount "zzzzz" =
      (Except.error ("URL not found for code: " ++ "zzzzz"), NewMockDynamoDB) ∧
     strContains ("URL not found for code: " ++ "zzzzz") "URL not found" = true) :=
  ⟨(IncrementClickCount_spec mWit "abcde" rfl).1
      (shortenItem "abcde" "https://example.com" "2025-01-01T00:00:00Z" 0) rfl,
   (IncrementClickCount_spec NewMockDynamoDB "zzzzz" rfl).2 rfl⟩

/-- C9: a successful `IncrementClickCount` changes only the click count of
the addressed record — its other four fields, and every record under a
different key, are untouched. -/
theorem IncrementClickCount_frame (m : MockDynamoDB) (code : String) (item : URLItem)
    (hf : m.failNext = false) (hitem : m.urls code = some item) :
    ∃ m' it', m.IncrementClickCount code = (Except.ok (), m') ∧
      m'.urls code = some it' ∧
      it'.clickCount = item.clickCount + 1 ∧
      it'.shortCode = item.shortCode ∧
      it'.originalURL = item.originalURL ∧
      it'.createdAt = item.createdAt ∧
      it'.expiration = item.expiration ∧
      (∀ c, c ≠ code → m'.urls c = m.urls c) := by
  let u : String → Option URLItem := fun c =>
    if c = code then some { item with clickCount := item.clickCount + 1 } else m.urls c
  refine ⟨{ m with urls := u },
    { item with clickCount := item.clickCount + 1 },
    ?_, ?_, rfl, rfl, rfl, rfl, rfl, ?_⟩
  · simp [MockDynamoDB.IncrementClickCount, hf, hitem, u]
  · simp [u]
  · intro c hc
    simp [u, hc]

/-- C9 witness: the single record of `mWit`. -/
theorem IncrementClickCount_frame_witness :
    ∃ m' it', mWit.IncrementClickCount "abcde" = (Except.ok (), m') ∧
      m'.urls "abcde" = some it' ∧
      it'.clickCount = 0 + 1 ∧
      it'.shortCode = "abcde" ∧
      it'.originalURL = "https://example.com" ∧
      it'.createdAt = "2025-01-01T00:00:00Z" ∧
      it'.expiration = 0 ∧
      (∀ c, c ≠ "abcde" → m'.urls c = mWit.urls c) :=
  IncrementClickCount_frame mWit "abcde"
    (shortenItem "abcde" "https://example.com" "2025-01-01T00:00:00Z" 0) rfl rfl

/-- One store operation never lowers the click count of any live record,
provided any `create` it performs uses a code with no live record. -/
theorem applyOp_clickCount_le (m : MockDynamoDB) (op : StoreOp)
    (hop : ∀ c o ca e, op = StoreOp.create c o ca e → m.urls c = none)
    (code : String) (i : Int) (hi : clickCountAt m code = some i) :
    ∃ j, clickCountAt (applyOp m op) code = some j ∧ i ≤ j := by
  cases op with
  | create c o ca e =>
    have hc : m.urls c = none := hop c o ca e rfl
    have hne : code ≠ c := by
      intro heq
      rw [heq, clickCountAt, hc] at hi
      simp at hi
    unfold applyOp MockDynamoDB.CreateURL
    by_cases hfn : m.failNext
    · exact ⟨i, by simpa [hfn, clickCountAt] using hi, le_refl i⟩
    · refine ⟨i, ?_, le_refl i⟩
      simpa [hfn, clickCountAt, shortenItem, hne] using hi
  | get c =>
    unfold applyOp MockDynamoDB.GetURL
    by_cases hfn : m.failNext
    · exact ⟨i, by simpa [hfn, clickCountAt] using hi, le_refl i⟩
    · cases hmc : m.urls c <;>
        exact ⟨i, by simpa [hfn, hmc, clickCountAt] using hi, le_refl i⟩
  | inc c =>
    unfold applyOp MockDynamoDB.IncrementClickCount
    by_cases hfn : m.failNext
    · exact ⟨i, by simpa [hfn, clickCountAt] using hi, le_refl i⟩
    · cases hmc : m.urls c with
      | none =>
        exact ⟨i, by simpa [hfn, hmc, clickCountAt] using hi, le_refl i⟩
      | some it =>
        by_cases heq : code = c
        · subst heq
          have : i = it.clickCount := by
            rw [clickCountAt, hmc] at hi
            simpa using hi.symm
          refine ⟨it.clickCount + 1, ?_, by omega⟩
          simp [hfn, hmc, clickCountAt]
        · refine ⟨i, ?_, le_refl i⟩
          simpa [hfn, hmc, clickCountAt, heq] using hi

/-- C6 amended: along any run of store operations in which every `create`
uses a fresh code (the uniqueness invariant), the click count of a live
record never decreases. -/
theorem clickCount_monotone_of_freshCreates (m : MockDynamoDB)
    (ops : List StoreOp) (hfresh : FreshCreates m ops) (code : String)
    (i i' : Int) (hi : clickCountAt m code = some i)
    (hi' : clickCountAt (runOps m ops) code = some i') : i ≤ i' := by
  induction ops generalizing m i with
  | nil =>
    unfold runOps at hi'
    rw [hi] at hi'
    injection hi' with h
    omega
  | cons op rest ih =>
    obtain ⟨hop, hrest⟩ := hfresh
    have hop' : ∀ c o ca e, op = StoreOp.create c o ca e → m.urls c = none := by
      intro c o ca e heq
      subst heq
      exact hop
    obtain ⟨j, hj, hij⟩ := applyOp_clickCount_le m op hop' code i hi
    exact le_trans hij (ih (applyOp m op) hrest j hj hi')

/-- C6 witness: starting from the one-record store `mWit`, the run
`[inc "abcde"]` takes the count from 0 to 1, and 0 ≤ 1 follows from the
theorem. -/
theorem clickCount_monotone_witness :
    FreshCreates mWit [StoreOp.inc "abcde"] ∧
    clickCountAt mWit "abcde" = some 0 ∧
    clickCountAt (runOps mWit [StoreOp.inc "abcde"]) "abcde" = some 1 ∧
    (0 : Int) ≤ 1 :=
  have hfresh : FreshCreates mWit [StoreOp.inc "abcde"] := ⟨trivial, trivial⟩
  have h0 : clickCountAt mWit "abcde" = some 0 := by decide
  have h1 : clickCountAt (runOps mWit [StoreOp.inc "abcde"]) "abcde" = some 1 := by decide
  ⟨hfresh, h0, h1,
    clickCount_monotone_of_freshCreates mWit _ hfresh "abcde" 0 1 h0 h1⟩

/-- C6 counterexample: the click count CAN decrease along a run built from
the handlers' own operations, because `create` overwrites unconditionally:
create "abcde", redirect once (count 1), then create "abcde" again — the
count drops back to 0. -/
theorem clickCount_not_monotone :
    ¬ (∀ (ops₁ ops₂ : List StoreOp) (code : String) (i i' : Int),
        clickCountAt (runOps NewMockDynamoDB ops₁) code = some i →
        clickCountAt (runOps NewMockDynamoDB (ops₁ ++ ops₂)) code = some i' →
        i ≤ i') := by
  intro h
  have h10 := h
    [StoreOp.create "abcde" "https://example.com" "t0" 0, StoreOp.inc "abcde"]
    [StoreOp.create "abcde" "https://other.example" "t1" 0]
    "abcde" 1 0 (by decide) (by decide)
  omega

/-- C7: when the path's short code resolves, `RedirectURL` answers 302 with
the `Location` header equal to the stored original URL and an empty body. -/
theorem RedirectURL_found (m : MockDynamoDB) (rawPath : String) (item : URLItem)
    (hf : m.failNext = false) (hroot : rawPath ≠ "/")
    (hres : m.urls (TrimPrefix rawPath "/") = some item) :
    (RedirectURL (Except.ok ()) m rawPath).1 =
      { statusCode := 302, headers := [("Location", item.originalURL)],
        body := "" } := by
  simp [RedirectURL, hroot, MockDynamoDB.GetURL, hf, hres, itemCopy]

/-- C7 witness: redirecting `/abcde` against the one-record store `mWit`. -/
theorem RedirectURL_found_witness :
    (RedirectURL (Except.ok ()) mWit "/abcde").1 =
      { statusCode := 302, headers := [("Location", "https://example.com")],
        body := "" } :=
  RedirectURL_found mWit "/abcde"
    (shortenItem "abcde" "https://example.com" "2025-01-01T00:00:00Z" 0)
    rfl (by decide) (by decide)

/-- C8: an unparsable body or an empty/missing `url` makes `ShortenURL`
answer 400 with one of its two JSON error bodies, and the store is returned
unchanged — no record is persisted. -/
theorem ShortenURL_invalid (m : MockDynamoDB) (reqBody : Option ShortenRequest)
    (randOk : Bool) (rand : Nat → Nat) (now : Int)
    (createdAt baseURLEnv domainName : String)
    (hbad : reqBody = none ∨ ∃ req, reqBody = some req ∧ req.url = "") :
    ∃ b, ShortenURL (Except.ok ()) m reqBody randOk rand now createdAt
        baseURLEnv domainName = ({ statusCode := 400, headers := [], body := b }, m) ∧
      (b = errBody "Invalid request body" ∨ b = errBody "URL is required") := by
  rcases hbad with h | ⟨req, hsome, hurl⟩
  · subst h
    exact ⟨errBody "Invalid request body", rfl, Or.inl rfl⟩
  · subst hsome
    exact ⟨errBody "URL is required", by simp [ShortenURL, hurl], Or.inr rfl⟩

/-- C8 witness: an unparsable body against the empty store. -/
theorem ShortenURL_invalid_witness :
    ∃ b, ShortenURL (Except.ok ()) NewMockDynamoDB none true (fun _ => 0) 0
        "2025-01-01T00:00:00Z" "" "api.example.com" =
      ({ statusCode := 400, headers := [], body := b }, NewMockDynamoDB) ∧
      (b = errBody "Invalid request body" ∨ b = errBody "URL is required") :=
  ShortenURL_invalid NewMockDynamoDB none true (fun _ => 0) 0
    "2025-01-01T00:00:00Z" "" "api.example.com" (Or.inl rfl)

/-- C1: a valid shorten request persists its record, and a subsequent get of
the generated code returns a record with click count 0 whose original URL is
the requested one. -/
theorem ShortenURL_then_GetURL (m : MockDynamoDB) (req : ShortenRequest)
    (rand : Nat → Nat) (code : String) (now : Int)
    (createdAt baseURLEnv domainName : String)
    (hf : m.failNext = false) (hurl : req.url ≠ "")
    (hgen : GenerateShortCode (codeLength : Int) true rand = GenResult.ok code) :
    (ShortenURL (Except.ok ()) m (some req) true rand now createdAt baseURLEnv
      domainName).1.statusCode = 201 ∧
    ∃ item,
      ((ShortenURL (Except.ok ()) m (some req) true rand now createdAt baseURLEnv
        domainName).2.GetURL code).1 = Except.ok item ∧
      item.clickCount = 0 ∧ item.originalURL = req.url := by
  have hc := CreateURL_eq_ok m
    { shortCode := code, originalURL := req.url, createdAt := createdAt,
      expiration := CalculateExpirationTime req.expireInDays now, clickCount := 0 } hf
  constructor
  · simp [ShortenURL, hurl, hgen, hc]
  · refine ⟨itemCopy (itemCopy
      { shortCode := code, originalURL := req.url, createdAt := createdAt,
        expiration := CalculateExpirationTime req.expireInDays now,
        clickCount := 0 }), ?_, rfl, rfl⟩
    simp [ShortenURL, hurl, hgen, hc, MockDynamoDB.GetURL, hf]

/-- C1 witness: shortening `https://example.com` for 7 days in the empty
store with an all-zero byte stream (code `aaaaa`). -/
theorem ShortenURL_then_GetURL_witness :
    (ShortenURL (Except.ok ()) NewMockDynamoDB
      (some ⟨"https://example.com", 7⟩) true (fun _ => 0) 1700000000
      "2025-01-01T00:00:00Z" "" "api.example.com").1.statusCode = 201 ∧
    ∃ item,
      ((ShortenURL (Except.ok ()) NewMockDynamoDB
        (some ⟨"https://example.com", 7⟩) true (fun _ => 0) 1700000000
        "2025-01-01T00:00:00Z" "" "api.example.com").2.GetURL "aaaaa").1 =
        Except.ok item ∧
      item.clickCount = 0 ∧ item.originalURL = "https://example.com" :=
  ShortenURL_then_GetURL NewMockDynamoDB ⟨"https://example.com", 7⟩
    (fun _ => 0) "aaaaa" 1700000000 "2025-01-01T00:00:00Z" "" "api.example.com"
    rfl (by decide) (by decide)

end UrlShortener
